import Mathlib

/-!
Verification of the email-processor repository against its specification.

Python strings are modelled as `List Char`, bytes as `List Nat`, Python
`None`-able values as `Option`, and raised exceptions as `Except`.
External collaborators (Gmail API, Cloud Storage, BigQuery) are passed in
as function parameters, mirroring the way the source receives client
handles as arguments.
-/

set_option maxRecDepth 8000
set_option maxHeartbeats 1600000

namespace EmailProc

/-- The nine characters replaced by the sanitizer, from the string of
unsafe characters in src/src/utils/file_utils.py (sanitize_filename). -/
def badChars : List Char := ['<', '>', ':', '"', '/', '\\', '|', '?', '*']

/-- One pass of str.replace: every occurrence of c becomes an underscore. -/
def replaceChar (s : List Char) (c : Char) : List Char :=
  s.map (fun x => if x = c then '_' else x)

/-- The replacement loop of sanitize_filename: one str.replace pass per
character of `badChars`, in order. -/
def replaceBad (s : List Char) : List Char :=
  badChars.foldl replaceChar s

/-- The effect of the whole replacement loop on a single character. -/
def sanChar (x : Char) : Char :=
  badChars.foldl (fun y c => if y = c then '_' else y) x

/-- Python slice s[:i], where i may be negative (counting from the end,
clamped at zero). -/
def pyTake (s : List Char) (i : Int) : List Char :=
  if 0 ≤ i then s.take i.toNat else s.take (s.length - (-i).toNat)

/-- os.path.splitext restricted to inputs without path separators (the
sanitizer applies it only after every slash and backslash has been replaced
by an underscore): split at the last dot, unless every character before
that dot is itself a dot, in which case there is no extension. -/
def splitext (p : List Char) : List Char × List Char :=
  match p.reverse.findIdx? (fun c => c == '.') with
  | none => (p, [])
  | some k =>
      let d := p.length - 1 - k
      if (p.take d).any (fun c => c != '.') then (p.take d, p.drop d) else (p, [])

/-- sanitize_filename from src/src/utils/file_utils.py (the class-method
variant in gmail_processor_refactored.py is identical with the length
bound passed as a parameter that defaults to the same 200).  Empty (or
Python None) input yields the placeholder name; then the unsafe characters
are replaced; then, if the result is longer than 200, the name part is cut
so that the splitext extension survives.  The cut uses Python slice
semantics: the slice bound 200 - len(ext) may be negative. -/
def sanitize_filename (filename : List Char) : List Char :=
  if filename = [] then "unnamed_attachment".toList
  else
    let f := replaceBad filename
    if 200 < f.length then
      pyTake (splitext f).1 ((200 : Int) - ((splitext f).2.length : Int)) ++ (splitext f).2
    else f

/-- The counterexample filename for the sanitizer claims: a one-character
name followed by a 201-character splitext extension (a dot and 200 letters).
Its extension alone is longer than the 200 bound, so the slice bound
200 - len(ext) is negative. -/
def c3Input : List Char := 'a' :: '.' :: List.replicate 200 'b'

/-- sanitize_filename on Lean strings (used where the source passes Python
strings around). -/
def sanitizeStr (s : String) : String :=
  String.mk (sanitize_filename s.toList)

/-- The ambient wall clock.  datetime.now().isoformat() yields
`nowLocalIso` (local time), datetime.utcnow().isoformat() yields
`nowUtcIso` (UTC); the two differ whenever the process does not run in
UTC. -/
structure Clock where
  nowLocalIso : String
  nowUtcIso : String

/-- parse_email_date from src/src/utils/file_utils.py.  The RFC 5322
parser email.utils.parsedate_to_datetime (which raises on failure) and the
datetime isoformat printer are abstract parameters.  The bare except
clause swallows every parser error and substitutes the current LOCAL time
datetime.now().isoformat().  The function itself is total: it never
raises. -/
def parse_email_date_utils {DT : Type} (parsedate : String → Except String DT)
    (isoformat : DT → String) (clock : Clock) (date_str : String) : String :=
  match parsedate date_str with
  | .ok dt => isoformat dt
  | .error _ => clock.nowLocalIso

/-- parse_email_date from src/src/components/process_emails.py (and
FileUtils.parse_email_date in gmail_processor_refactored.py): identical
except that the fallback is datetime.utcnow().isoformat() (UTC). -/
def parse_email_date_components {DT : Type} (parsedate : String → Except String DT)
    (isoformat : DT → String) (clock : Clock) (date_str : String) : String :=
  match parsedate date_str with
  | .ok dt => isoformat dt
  | .error _ => clock.nowUtcIso

/-- Python exception kinds that the modelled code can raise. -/
inductive PyErr where
  | keyError
  | decodeError
  | unboundLocal
  | typeError
  | providerError
  | other (msg : String)
deriving DecidableEq

/-- The body sub-dictionary of a Gmail message part: optional inline
base64url payload and optional attachment reference id. -/
structure PartBody where
  data : Option String
  attachmentId : Option String

/-- One node of the Gmail message-part tree.  `parts = some children`
models a dictionary that has a parts key (even with an empty child list);
`parts = none` models a leaf dictionary without that key.  `mimeType` and
`filename` are optional keys. -/
inductive MsgPart where
  | mk (mimeType : Option String) (filename : Option String)
       (body : PartBody) (parts : Option (List MsgPart))

def MsgPart.mimeType : MsgPart → Option String
  | ⟨m, _, _, _⟩ => m

def MsgPart.filename : MsgPart → Option String
  | ⟨_, f, _, _⟩ => f

def MsgPart.body : MsgPart → PartBody
  | ⟨_, _, b, _⟩ => b

def MsgPart.parts : MsgPart → Option (List MsgPart)
  | ⟨_, _, _, p⟩ => p

/-- Python string truthiness of an optional string value: a missing key or
an empty string is falsy. -/
def strTruthy : Option String → Bool
  | none => false
  | some s => !(s == "")

/-- Python str.strip(): remove whitespace from both ends (modelled over the
character list). -/
def pyStrip (s : String) : String :=
  String.mk (((s.toList.dropWhile Char.isWhitespace).reverse.dropWhile
    Char.isWhitespace).reverse)

/-- The loop body of extract_email_body in
src/src/components/process_emails.py: iterate over the DIRECT children of
the payload only (the source does not recurse into nested parts).  A
missing mimeType key raises KeyError; a failing base64url/utf-8 decode
raises and is not caught here.  The decoder and the HTML tag stripper
(re.sub of angle-bracket groups) are abstract parameters. -/
def extract_body_loop (dec : String → Option String) (strip : String → String) :
    List MsgPart → String → Except PyErr String
  | [], body => .ok body
  | p :: rest, body =>
      match p.mimeType with
      | none => .error .keyError
      | some mt =>
          if mt = "text/plain" then
            match p.body.data with
            | some d =>
                match dec d with
                | some t => extract_body_loop dec strip rest (body ++ t)
                | none => .error .decodeError
            | none => extract_body_loop dec strip rest body
          else if mt = "text/html" ∧ body = "" then
            match p.body.data with
            | some d =>
                match dec d with
                | some t => extract_body_loop dec strip rest (strip t)
                | none => .error .decodeError
            | none => extract_body_loop dec strip rest body
          else extract_body_loop dec strip rest body

/-- extract_email_body from src/src/components/process_emails.py.  With a
parts key, only the direct children are scanned; without one, only a
text/plain payload is decoded (no HTML fallback in the single-part
branch).  The result is stripped of surrounding whitespace. -/
def extract_email_body (dec : String → Option String) (strip : String → String)
    (payload : MsgPart) : Except PyErr String :=
  match payload.parts with
  | some parts => (extract_body_loop dec strip parts "").map (fun b => pyStrip b)
  | none =>
      match payload.mimeType with
      | none => .error .keyError
      | some mt =>
          if mt = "text/plain" then
            match payload.body.data with
            | some d =>
                match dec d with
                | some t => .ok (pyStrip t)
                | none => .error .decodeError
            | none => .ok (pyStrip "")
          else .ok (pyStrip "")

/-- EmailParser._is_text_part from gmail_processor_refactored.py: a text
part has MIME type text/plain or text/html, NO (truthy) filename, and a
present inline data payload. -/
def is_text_part (p : MsgPart) : Bool :=
  (p.mimeType == some "text/plain" || p.mimeType == some "text/html") &&
  !(strTruthy p.filename) && p.body.data.isSome

/-- EmailParser._decode_part_data from gmail_processor_refactored.py:
decode errors are swallowed and become None. -/
def decode_part_data (dec : String → Option String) (p : MsgPart) : Option String :=
  match p.body.data with
  | some d => dec d
  | none => none

/-- The recursive process_parts_for_body walk of
EmailParser._extract_email_body in gmail_processor_refactored.py: parts
with children are recursed into; text leaves append plain text, or set the
body to stripped HTML while the buffer is still empty. -/
def body_walk (dec : String → Option String) (strip : String → String) :
    List MsgPart → String → String
  | [], body => body
  | MsgPart.mk _mt _fn _bd (some children) :: rest, body =>
      body_walk dec strip rest (body_walk dec strip children body)
  | MsgPart.mk mt fn bd none :: rest, body =>
      if is_text_part (MsgPart.mk mt fn bd none) then
        match decode_part_data dec (MsgPart.mk mt fn bd none) with
        | some t =>
            if t = "" then body_walk dec strip rest body
            else if mt == some "text/plain" then
              body_walk dec strip rest (body ++ t)
            else if mt == some "text/html" ∧ body = "" then
              body_walk dec strip rest (strip t)
            else body_walk dec strip rest body
        | none => body_walk dec strip rest body
      else body_walk dec strip rest body

/-- EmailParser._extract_email_body from gmail_processor_refactored.py.
Note that in the single-part branch the decoded text is used as the body
without HTML stripping. -/
def extract_email_body_refactored (dec : String → Option String)
    (strip : String → String) (payload : MsgPart) : String :=
  match payload.parts with
  | some parts => pyStrip (body_walk dec strip parts "")
  | none =>
      if is_text_part payload then
        match decode_part_data dec payload with
        | some t => if t = "" then pyStrip "" else pyStrip t
        | none => pyStrip ""
      else pyStrip ""

/-- The recursive process_parts helper of extract_attachments in
src/src/components/process_emails.py (the refactored
EmailParser._extract_attachments has the same shape).  A part that has a
parts key is ONLY recursed into; otherwise a part with truthy filename and
truthy attachment id is handed to download_and_upload_attachment, whose
call is abstracted as `handle attachmentId filename mimeType`. -/
def process_parts {A : Type} (handle : String → String → String → A) :
    List MsgPart → List A
  | [] => []
  | MsgPart.mk _mt _fn _bd (some children) :: rest =>
      process_parts handle children ++ process_parts handle rest
  | MsgPart.mk mt fn bd none :: rest =>
      (if strTruthy fn && strTruthy bd.attachmentId then
        [handle (bd.attachmentId.getD "") (fn.getD "")
          (mt.getD "application/octet-stream")]
      else []) ++ process_parts handle rest

/-- extract_attachments from src/src/components/process_emails.py, applied
to the message payload. -/
def extract_attachments {A : Type} (handle : String → String → String → A)
    (payload : MsgPart) : List A :=
  match payload.parts with
  | some parts => process_parts handle parts
  | none =>
      if strTruthy payload.filename && strTruthy payload.body.attachmentId then
        [handle (payload.body.attachmentId.getD "") (payload.filename.getD "")
          (payload.mimeType.getD "application/octet-stream")]
      else []

/-- Result dictionary of download_and_upload_attachment in
src/src/components/process_emails.py (field-for-field the AttachmentInfo
dataclass of gmail_processor_refactored.py). -/
structure AttachmentInfo where
  filename : String
  mime_type : String
  size : Nat
  gcs_url : Option String
  uploaded_successfully : Bool
  attachment_id : String
  error : Option String
deriving DecidableEq

/-- download_and_upload_attachment from
src/src/components/process_emails.py.  `fetch` abstracts the Gmail
attachment download plus base64url decode (which can raise, giving the
except branch); `upload` abstracts the GCS uploader, which catches its own
errors and returns None on failure.  (The source calls the uploader with
its arguments in an order that does not match the uploader signature in
src/src/components/store_gcs.py; the resulting TypeError would be caught
by this same except branch.  The abstract `upload` covers both the
intended collaborator and that behaviour.) -/
def download_and_upload_attachment (fetch : String → String → Except String (List Nat))
    (upload : List Nat → String → String → Option String)
    (message_id attachment_id filename mime_type : String) : AttachmentInfo :=
  match fetch message_id attachment_id with
  | .ok file_data =>
      let gcs_url := upload file_data filename message_id
      { filename := filename, mime_type := mime_type, size := file_data.length,
        gcs_url := gcs_url, uploaded_successfully := gcs_url.isSome,
        attachment_id := attachment_id, error := none }
  | .error e =>
      { filename := filename, mime_type := mime_type, size := 0,
        gcs_url := none, uploaded_successfully := false,
        attachment_id := attachment_id, error := some e }

/-- One element of the attachment_summary list built by parse_email. -/
structure AttachmentSummaryEntry where
  filename : String
  mime_type : String
  size : Nat
  gcs_url : Option String
  uploaded_successfully : Bool
deriving DecidableEq

/-- One iteration of the summary loop in parse_email: append the summary
entry, add the size, and count a successful upload. -/
def summaryStep (acc : List AttachmentSummaryEntry × Nat × Nat)
    (att : AttachmentInfo) : List AttachmentSummaryEntry × Nat × Nat :=
  (acc.1 ++ [⟨att.filename, att.mime_type, att.size, att.gcs_url,
      att.uploaded_successfully⟩],
   acc.2.1 + att.size,
   acc.2.2 + (if att.uploaded_successfully then 1 else 0))

/-- A full Gmail message as consumed by parse_email.  The headers list
lives inside the payload dictionary in the source; the optional provider
metadata fields use Python dict-get defaults. -/
structure GmailMessage where
  id : String
  threadId : Option String
  labelIds : Option (List String)
  snippet : Option String
  sizeEstimate : Option Nat
  headers : List (String × String)
  payload : MsgPart

/-- The header dictionary comprehension of parse_email followed by a
dict.get with default: a later occurrence of the same header name
overwrites an earlier one. -/
def headersDict (hs : List (String × String)) (name dflt : String) : String :=
  match hs.reverse.find? (fun h => h.1 == name) with
  | some h => h.2
  | none => dflt

/-- The dictionary returned by parse_email in
src/src/components/process_emails.py.  The two json.dumps serialisations
(label_ids, attachment_summary) are modelled as the lists themselves. -/
structure EmailRecord where
  message_id : String
  thread_id : String
  subject : String
  sender : String
  recipient : String
  date_received : String
  parsed_date : String
  body_text : String
  label_ids : List String
  snippet : String
  message_size : Nat
  attachment_count : Nat
  attachment_summary : List AttachmentSummaryEntry
  total_attachment_size : Nat
  successful_uploads : Nat
  processed_at : String
deriving DecidableEq

/-- parse_email from src/src/components/process_emails.py.  Attachments
are extracted (and fetched/uploaded) first, then the summary loop runs,
and the record is assembled; a failure inside extract_email_body
propagates out of the function uncaught. -/
def parse_email {DT : Type} (fetch : String → String → Except String (List Nat))
    (upload : List Nat → String → String → Option String)
    (dec : String → Option String) (strip : String → String)
    (parsedate : String → Except String DT) (isoformat : DT → String)
    (clock : Clock) (message : GmailMessage) : Except PyErr EmailRecord :=
  let attachments := extract_attachments
    (fun aid fn mt => download_and_upload_attachment fetch upload message.id aid fn mt)
    message.payload
  let acc := attachments.foldl summaryStep ([], 0, 0)
  match extract_email_body dec strip message.payload with
  | .error e => .error e
  | .ok body =>
      .ok { message_id := message.id,
            thread_id := message.threadId.getD "",
            subject := headersDict message.headers "Subject" "",
            sender := headersDict message.headers "From" "",
            recipient := headersDict message.headers "To" "",
            date_received := headersDict message.headers "Date" "",
            parsed_date := parse_email_date_components parsedate isoformat clock
              (headersDict message.headers "Date" ""),
            body_text := body,
            label_ids := message.labelIds.getD [],
            snippet := message.snippet.getD "",
            message_size := message.sizeEstimate.getD 0,
            attachment_count := attachments.length,
            attachment_summary := acc.1,
            total_attachment_size := acc.2.1,
            successful_uploads := acc.2.2,
            processed_at := clock.nowUtcIso }

/-- The blob key computed by upload_attachment_to_gcs in
src/src/components/store_gcs.py: current date, message id, sanitized
filename. -/
def gcs_blob_name (curr_date message_id file_name : String) : String :=
  curr_date ++ "/" ++ message_id ++ "/" ++ sanitizeStr file_name

/-- upload_attachment_to_gcs from src/src/components/store_gcs.py.  The
object store (bucket lookup, blob creation and upload, any of which can
raise into the except branch) is abstracted by `put`, which receives the
blob key, the bytes and the content type; on success the function returns
the qualified gs:// name, on any failure None. -/
def upload_attachment_to_gcs (put : String → List Nat → String → Bool)
    (curr_date bucket_name file_name : String) (file_data : List Nat)
    (file_type message_id : String) : Option String :=
  let blob_name := gcs_blob_name curr_date message_id file_name
  if put blob_name file_data file_type then
    some ("gs://" ++ bucket_name ++ "/" ++ blob_name)
  else none

/-- The blob key computed by GCSManager.upload_attachment in
gmail_processor_refactored.py: a constant attachments segment, the message
id, and the sanitized filename — no date segment. -/
def gcs_blob_name_refactored (message_id file_name : String) : String :=
  "attachments/" ++ message_id ++ "/" ++ sanitizeStr file_name

/-- store_emails_in_bigquery from src/src/components/store_bigquery.py.
Row construction is abstracted by `toRow` and the BigQuery
insert_rows_json call by `insert` (returning the per-row error list).
The source function falls off the end of both branches, so the Python
return value is None in every case: modelled as `none` (an Option Bool
that the caller in main.py tests for truthiness). -/
def store_emails_in_bigquery {R S : Type} (toRow : R → S)
    (insert : List S → List String) (emails : List R) : Option Bool :=
  if emails.isEmpty then none
  else
    let _errors := insert (emails.map toRow)
    none

/-- Python truthiness of an optional boolean (the value of a variable that
may hold None). -/
def truthyOpt : Option Bool → Bool
  | none => false
  | some b => b

/-- Python truthiness of an optional bytes value: None or empty bytes is
falsy. -/
def dataTruthy : Option (List Nat) → Bool
  | none => false
  | some d => !d.isEmpty

/-- One attachment dictionary inside the extracted email consumed by the
main.py loop; the loop pops file_data and may add a gcs_url key. -/
structure MainAttachment where
  file_name : String
  file_data : Option (List Nat)
  file_type : String
  gcs_url : Option String
deriving DecidableEq

/-- The dictionary returned by read_email as used by main.py: only the
attachments entry is inspected; everything else is passed through opaquely
to the warehouse step. -/
structure ExtractedEmail where
  attachments : List MainAttachment
  content : String
deriving DecidableEq

/-- The attachment loop of main.py (lines 98-125): attachments with falsy
file_data are only logged; for the rest the uploader is called and the
pair it yields is unpacked into gcs_upload_status and gcs_url (the
function actually imported from store_gcs returns a single optional
string, so the unpacking itself raises at run time; the Except-valued
`uploadGcs` parameter models the call site and can also represent that
raise).  The threaded Option Bool is the gcs_upload_status local: none
means never assigned. -/
def processAttachments
    (uploadGcs : String → List Nat → String → String → Except PyErr (Bool × Option String))
    (emailId : String) :
    List MainAttachment → Option Bool → Except PyErr (Option Bool × List MainAttachment)
  | [], st => .ok (st, [])
  | att :: rest, st =>
      if dataTruthy att.file_data then
        match uploadGcs att.file_name (att.file_data.getD []) att.file_type emailId with
        | .error e => .error e
        | .ok (status, url) =>
            let att2 : MainAttachment :=
              ⟨att.file_name, none, att.file_type,
                if status && strTruthy url then url else att.gcs_url⟩
            match processAttachments uploadGcs emailId rest (some status) with
            | .error e => .error e
            | .ok (st2, rest2) => .ok (st2, att2 :: rest2)
      else
        match processAttachments uploadGcs emailId rest st with
        | .error e => .error e
        | .ok (st2, rest2) => .ok (st2, att :: rest2)

/-- The mark-read condition of main.py lines 134-136, with Python
short-circuit evaluation: reading gcs_upload_status while it is unassigned
raises UnboundLocalError, which happens exactly when the attachment list
is non-empty and no upload has assigned the variable. -/
def evalMarkCond (attachments : List MainAttachment) (gcsStatus : Option Bool)
    (bq : Option Bool) : Except PyErr Bool :=
  if attachments.isEmpty then .ok (truthyOpt bq)
  else
    match gcsStatus with
    | none => .error .unboundLocal
    | some st => .ok (st && truthyOpt bq)

/-- One iteration of the per-message loop of main.py (lines 87-140):
read_email, the attachment loop, the warehouse call, then the conditional
mark_email_read (modelled as recording the id; the collaborator itself is
absent from src).  Returns the updated gcs_upload_status binding and the
optionally marked id, or the propagated exception. -/
def processOneEmail (readEmail : String → Except PyErr ExtractedEmail)
    (uploadGcs : String → List Nat → String → String → Except PyErr (Bool × Option String))
    (storeBq : ExtractedEmail → Except PyErr (Option Bool))
    (st : Option Bool) (emailId : String) :
    Except PyErr (Option Bool × Option String) :=
  match readEmail emailId with
  | .error e => .error e
  | .ok extracted =>
      match processAttachments uploadGcs emailId extracted.attachments st with
      | .error e => .error e
      | .ok (st2, atts2) =>
          match storeBq { extracted with attachments := atts2 } with
          | .error e => .error e
          | .ok bq =>
              match evalMarkCond atts2 st2 bq with
              | .error e => .error e
              | .ok true => .ok (st2, some emailId)
              | .ok false => .ok (st2, none)

/-- Observable outcome of one invocation of main.process_emails: which ids
were read, which were marked, and the error logged by the single
batch-level handler (if any). -/
structure BatchResult where
  readIds : List String
  marked : List String
  batchError : Option PyErr
deriving DecidableEq

/-- The for-loop of main.py over the unread email ids.  Because the only
try/except block in process_emails wraps the WHOLE loop, the first
exception in any iteration ends the batch; the gcs_upload_status binding
survives from one iteration to the next (one function-level local). -/
def processLoop (readEmail : String → Except PyErr ExtractedEmail)
    (uploadGcs : String → List Nat → String → String → Except PyErr (Bool × Option String))
    (storeBq : ExtractedEmail → Except PyErr (Option Bool)) :
    List String → Option Bool → List String → List String → BatchResult
  | [], _, reads, marked => ⟨reads, marked, none⟩
  | emailId :: rest, st, reads, marked =>
      match processOneEmail readEmail uploadGcs storeBq st emailId with
      | .error e => ⟨reads ++ [emailId], marked, some e⟩
      | .ok (st2, mk) =>
          processLoop readEmail uploadGcs storeBq rest st2 (reads ++ [emailId])
            (marked ++ mk.toList)

/-- process_emails from src/main.py.  Service initialisation failures
return early with nothing done; a listing failure (list_unread_emails and
read_email are imported from a module that does not define them — they are
treated as abstract collaborators) is caught by the batch-level handler;
otherwise the per-message loop runs. -/
def process_emails (authOk : Bool) (listUnread : Except PyErr (List String))
    (readEmail : String → Except PyErr ExtractedEmail)
    (uploadGcs : String → List Nat → String → String → Except PyErr (Bool × Option String))
    (storeBq : ExtractedEmail → Except PyErr (Option Bool)) : BatchResult :=
  if authOk then
    match listUnread with
    | .error e => ⟨[], [], some e⟩
    | .ok emails => processLoop readEmail uploadGcs storeBq emails none [] []
  else ⟨[], [], none⟩

/-- Fixture: a leaf attachment part (filename and attachment id, no
children). -/
def c4Child : MsgPart :=
  .mk (some "text/plain") (some "b.txt") ⟨none, some "id2"⟩ none

/-- Fixture: a part that both qualifies as an attachment candidate
(non-empty filename, non-null attachment id) AND has a child part. -/
def c4Parent : MsgPart :=
  .mk (some "application/pdf") (some "a.txt") ⟨none, some "id1"⟩ (some [c4Child])

/-- Fixture: an inline text/plain leaf carrying payload d. -/
def plainPart (d : String) : MsgPart :=
  .mk (some "text/plain") none ⟨some d, none⟩ none

/-- Fixture: a multipart container with the given children. -/
def multiPart (l : List MsgPart) : MsgPart :=
  .mk (some "multipart/mixed") none ⟨none, none⟩ (some l)

/-- Fixture: a text/plain part that carries a filename (an attachment
candidate) together with inline data. -/
def c6Att : MsgPart :=
  .mk (some "text/plain") (some "notes.txt") ⟨some "c2VjcmV0", some "att1"⟩ none

/-- The summary entry built from one attachment dictionary (the record
appended by one summary-loop iteration). -/
def entryOf (a : AttachmentInfo) : AttachmentSummaryEntry :=
  ⟨a.filename, a.mime_type, a.size, a.gcs_url, a.uploaded_successfully⟩

/-- Fixture: a message whose payload is a single attachment leaf, used to
evaluate parse_email on a concrete input. -/
def c9Msg : GmailMessage :=
  ⟨"m1", none, none, none, none, [("Subject", "Hi")],
    .mk (some "application/pdf") (some "f.pdf") ⟨none, some "aid1"⟩ none⟩

/-- Fixture: the record parse_email produces for c9Msg when the fetch
yields three bytes, the upload succeeds with a fixed URI, the date parser
fails, and the clock reads L (local) and U (UTC). -/
def c9Record : EmailRecord :=
  { message_id := "m1", thread_id := "", subject := "Hi", sender := "",
    recipient := "", date_received := "", parsed_date := "U", body_text := "",
    label_ids := [], snippet := "", message_size := 0, attachment_count := 1,
    attachment_summary := [⟨"f.pdf", "application/pdf", 3, some "gs://b/k", true⟩],
    total_attachment_size := 3, successful_uploads := 1, processed_at := "U" }

lemma foldl_replaceChar (cs : List Char) (s : List Char) :
    cs.foldl replaceChar s
      = s.map (fun x => cs.foldl (fun y c => if y = c then '_' else y) x) := by
  induction cs generalizing s with
  | nil => simp
  | cons c cs ih =>
      simp only [List.foldl_cons, replaceChar, ih, List.map_map]
      rfl

lemma replaceBad_eq_map (s : List Char) : replaceBad s = s.map sanChar :=
  foldl_replaceChar badChars s

lemma replaceBad_length (s : List Char) : (replaceBad s).length = s.length := by
  rw [replaceBad_eq_map, List.length_map]

lemma sanChar_of_ne (x : Char) (h1 : x ≠ '<') (h2 : x ≠ '>') (h3 : x ≠ ':')
    (h4 : x ≠ '"') (h5 : x ≠ '/') (h6 : x ≠ '\\') (h7 : x ≠ '|')
    (h8 : x ≠ '?') (h9 : x ≠ '*') : sanChar x = x := by
  simp [sanChar, badChars, h1, h2, h3, h4, h5, h6, h7, h8, h9]

lemma sanChar_idem (x : Char) : sanChar (sanChar x) = sanChar x := by
  by_cases h1 : x = '<'
  · subst h1; decide
  by_cases h2 : x = '>'
  · subst h2; decide
  by_cases h3 : x = ':'
  · subst h3; decide
  by_cases h4 : x = '"'
  · subst h4; decide
  by_cases h5 : x = '/'
  · subst h5; decide
  by_cases h6 : x = '\\'
  · subst h6; decide
  by_cases h7 : x = '|'
  · subst h7; decide
  by_cases h8 : x = '?'
  · subst h8; decide
  by_cases h9 : x = '*'
  · subst h9; decide
  have hx := sanChar_of_ne x h1 h2 h3 h4 h5 h6 h7 h8 h9
  rw [hx]
  exact hx

lemma map_sanChar_map_sanChar (s : List Char) :
    (s.map sanChar).map sanChar = s.map sanChar := by
  induction s with
  | nil => simp only [List.map_nil]
  | cons a t ih => simp only [List.map_cons, ih, sanChar_idem]

lemma replaceBad_idem (s : List Char) :
    replaceBad (replaceBad s) = replaceBad s := by
  rw [replaceBad_eq_map, replaceBad_eq_map]
  exact map_sanChar_map_sanChar s

lemma splitext_append (p : List Char) :
    (splitext p).1 ++ (splitext p).2 = p := by
  cases h : p.reverse.findIdx? (fun c => c == '.') with
  | none => simp [splitext, h]
  | some k =>
      by_cases hd : (p.take (p.length - 1 - k)).any (fun c => c != '.')
      · simp [splitext, h, hd]
      · simp [splitext, h, hd]

lemma splitext_length (p : List Char) :
    (splitext p).1.length + (splitext p).2.length = p.length := by
  have h := congrArg List.length (splitext_append p)
  simpa [List.length_append] using h

lemma splitext_eq_take_drop (p : List Char) :
    ∃ d, (splitext p).1 = p.take d ∧ (splitext p).2 = p.drop d := by
  cases h : p.reverse.findIdx? (fun c => c == '.') with
  | none => exact ⟨p.length, by simp [splitext, h], by simp [splitext, h]⟩
  | some k =>
      by_cases hd : (p.take (p.length - 1 - k)).any (fun c => c != '.')
      · exact ⟨p.length - 1 - k, by simp [splitext, h, hd], by simp [splitext, h, hd]⟩
      · exact ⟨p.length, by simp [splitext, h, hd], by simp [splitext, h, hd]⟩

lemma replaceBad_append (a b : List Char) :
    replaceBad (a ++ b) = replaceBad a ++ replaceBad b := by
  simp [replaceBad_eq_map]

lemma replaceBad_take (s : List Char) (k : Nat) :
    replaceBad (s.take k) = (replaceBad s).take k := by
  simp [replaceBad_eq_map, List.map_take]

lemma replaceBad_drop (s : List Char) (k : Nat) :
    replaceBad (s.drop k) = (replaceBad s).drop k := by
  simp [replaceBad_eq_map, List.map_drop]

lemma sanitize_eq_of_short (f : List Char) (hf : f ≠ [])
    (hl : ¬ 200 < (replaceBad f).length) :
    sanitize_filename f = replaceBad f := by
  simp [sanitize_filename, hf, hl]

lemma sanitize_eq_of_long (f : List Char) (hf : f ≠ [])
    (hl : 200 < (replaceBad f).length) :
    sanitize_filename f
      = pyTake (splitext (replaceBad f)).1
          ((200 : Int) - ((splitext (replaceBad f)).2.length : Int))
        ++ (splitext (replaceBad f)).2 := by
  simp [sanitize_filename, hf, hl]

lemma sanitize_of_replaced_short (r : List Char) (hr : r ≠ [])
    (hmap : replaceBad r = r) (hlen : r.length ≤ 200) :
    sanitize_filename r = r := by
  rw [sanitize_eq_of_short r hr (by rw [hmap]; omega), hmap]

/-- Claim C3 (amended): the sanitizer is idempotent, its output stays within
the 200-character bound, and truncation keeps the splitext extension as a
suffix, PROVIDED the splitext extension of the character-replaced filename is
itself at most 200 characters long.  (When the extension alone exceeds 200
characters the source keeps the whole extension, so the output exceeds the
bound and a second application truncates it differently; see the
counterexample.) -/
theorem c3_sanitize_filename_amended (f : List Char)
    (h : (splitext (replaceBad f)).2.length ≤ 200) :
    sanitize_filename (sanitize_filename f) = sanitize_filename f ∧
    (sanitize_filename f).length ≤ 200 ∧
    (splitext (replaceBad f)).2 <:+ sanitize_filename f := by
  by_cases hf : f = []
  · subst hf
    have h1 : sanitize_filename ([] : List Char) = "unnamed_attachment".toList := by
      simp [sanitize_filename]
    rw [h1]
    refine ⟨sanitize_of_replaced_short _ (by decide) (by decide) (by decide),
      by decide, ?_⟩
    have h2 : (splitext (replaceBad ([] : List Char))).2 = [] := by decide
    rw [h2]
    exact List.nil_suffix
  · have hrep_g : replaceBad (replaceBad f) = replaceBad f := replaceBad_idem f
    have hglen : (replaceBad f).length = f.length := replaceBad_length f
    have hgne : replaceBad f ≠ [] := by
      have : 0 < f.length := List.length_pos.mpr hf
      exact List.length_pos.mp (by omega)
    obtain ⟨d, hn, he⟩ := splitext_eq_take_drop (replaceBad f)
    have hga : (splitext (replaceBad f)).1 ++ (splitext (replaceBad f)).2
        = replaceBad f := splitext_append (replaceBad f)
    have hlensum : (splitext (replaceBad f)).1.length
        + (splitext (replaceBad f)).2.length = (replaceBad f).length :=
      splitext_length (replaceBad f)
    by_cases hl : 200 < (replaceBad f).length
    · have hs := sanitize_eq_of_long f hf hl
      have hknn : (0 : Int) ≤ 200 - ((splitext (replaceBad f)).2.length : Int) := by
        omega
      have hpt : pyTake (splitext (replaceBad f)).1
            ((200 : Int) - ((splitext (replaceBad f)).2.length : Int))
          = (splitext (replaceBad f)).1.take
              (200 - (splitext (replaceBad f)).2.length) := by
        unfold pyTake
        rw [if_pos hknn]
        congr 1
        omega
      rw [hpt] at hs
      have hrep_n : replaceBad (splitext (replaceBad f)).1
          = (splitext (replaceBad f)).1 := by
        rw [hn, replaceBad_take, hrep_g]
      have hrep_e : replaceBad (splitext (replaceBad f)).2
          = (splitext (replaceBad f)).2 := by
        rw [he, replaceBad_drop, hrep_g]
      have hrep_r : replaceBad
            ((splitext (replaceBad f)).1.take
              (200 - (splitext (replaceBad f)).2.length)
             ++ (splitext (replaceBad f)).2)
          = (splitext (replaceBad f)).1.take
              (200 - (splitext (replaceBad f)).2.length)
            ++ (splitext (replaceBad f)).2 := by
        rw [replaceBad_append, replaceBad_take, hrep_n, hrep_e]
      have hr_len : ((splitext (replaceBad f)).1.take
            (200 - (splitext (replaceBad f)).2.length)
           ++ (splitext (replaceBad f)).2).length = 200 := by
        simp only [List.length_append, List.length_take]
        omega
      refine ⟨?_, ?_, ?_⟩
      · rw [hs]
        exact sanitize_of_replaced_short _ (List.length_pos.mp (by omega))
          hrep_r (by omega)
      · rw [hs]
        omega
      · rw [hs]
        exact ⟨_, rfl⟩
    · have hs := sanitize_eq_of_short f hf hl
      refine ⟨?_, ?_, ?_⟩
      · rw [hs]
        exact sanitize_of_replaced_short _ hgne hrep_g (by omega)
      · rw [hs]
        omega
      · rw [hs]
        exact ⟨(splitext (replaceBad f)).1, hga⟩

/-- Claim C3, counterexample to the claim as stated: for the input
consisting of the letter a, a dot and two hundred letters b, the sanitizer
output is 201 characters long (above the stated 200-character bound) and a
second application of the sanitizer shortens it further, so the function is
not idempotent on it. -/
theorem c3_sanitize_filename_counterexample :
    ¬ (sanitize_filename (sanitize_filename c3Input) = sanitize_filename c3Input ∧
       (sanitize_filename c3Input).length ≤ 200) := by
  decide

/-- Witness for c3_sanitize_filename_amended at a concrete input. -/
theorem c3_sanitize_filename_amended_witness :
    (splitext (replaceBad "report.pdf".toList)).2.length ≤ 200 ∧
    (sanitize_filename (sanitize_filename "report.pdf".toList)
        = sanitize_filename "report.pdf".toList ∧
     (sanitize_filename "report.pdf".toList).length ≤ 200 ∧
     (splitext (replaceBad "report.pdf".toList)).2 <:+
        sanitize_filename "report.pdf".toList) :=
  ⟨by decide, c3_sanitize_filename_amended _ (by decide)⟩

lemma str_empty_append (s : String) : "" ++ s = s := by
  rcases s with ⟨l⟩
  rfl

/-- Claim C7, counterexample to the claim as stated: the date normalizer in
src/src/utils/file_utils.py falls back to datetime.now() (local time), not
UTC; on a clock where local and UTC time differ, a parse failure returns
the local string. -/
theorem c7_parse_email_date_counterexample :
    parse_email_date_utils (fun _ => Except.error "ValueError")
        (fun _ : Unit => "") ⟨"1999-12-31T23:00:00", "2000-01-01T07:00:00"⟩ ""
      = "1999-12-31T23:00:00" ∧
    parse_email_date_utils (fun _ => Except.error "ValueError")
        (fun _ : Unit => "") ⟨"1999-12-31T23:00:00", "2000-01-01T07:00:00"⟩ ""
      ≠ "2000-01-01T07:00:00" := by
  exact ⟨rfl, by decide⟩

/-- Claim C7 (amended): neither date-normalizer variant ever raises — every
parser error is swallowed — and on parse failure the
components/process_emails variant returns the current UTC time while the
utils/file_utils variant returns the current LOCAL time; on parse success
both return the isoformat of the parsed datetime. -/
theorem c7_parse_email_date_amended {DT : Type}
    (parsedate : String → Except String DT) (isoformat : DT → String)
    (clock : Clock) (s : String) :
    (∀ e, parsedate s = .error e →
        parse_email_date_utils parsedate isoformat clock s = clock.nowLocalIso ∧
        parse_email_date_components parsedate isoformat clock s = clock.nowUtcIso) ∧
    (∀ dt, parsedate s = .ok dt →
        parse_email_date_utils parsedate isoformat clock s = isoformat dt ∧
        parse_email_date_components parsedate isoformat clock s = isoformat dt) := by
  constructor
  · intro e he
    simp [parse_email_date_utils, parse_email_date_components, he]
  · intro dt hdt
    simp [parse_email_date_utils, parse_email_date_components, hdt]

/-- Witness for c7_parse_email_date_amended at a concrete failing parse. -/
theorem c7_parse_email_date_amended_witness :
    ((fun _ : String => (Except.error "ValueError" : Except String Unit)) ""
        = Except.error "ValueError") ∧
    (parse_email_date_utils (fun _ => Except.error "ValueError")
        (fun _ : Unit => "x") ⟨"L", "U"⟩ "" = "L" ∧
     parse_email_date_components (fun _ => Except.error "ValueError")
        (fun _ : Unit => "x") ⟨"L", "U"⟩ "" = "U") :=
  ⟨rfl, (c7_parse_email_date_amended (fun _ => Except.error "ValueError")
    (fun _ : Unit => "x") ⟨"L", "U"⟩ "").1 "ValueError" rfl⟩

/-- Claim C8, counterexample to the claim as stated: the uploader of
gmail_processor_refactored.py writes under attachments/{messageId}/{file};
the first path segment is the constant word attachments (11 characters),
which is never a ten-character YYYY-MM-DD current-date segment. -/
theorem c8_storage_key_counterexample :
    gcs_blob_name_refactored "m1" "a.txt" = "attachments/m1/a.txt" ∧
    "attachments/m1/a.txt".toList.takeWhile (fun c => c ≠ '/')
      = "attachments".toList ∧
    "attachments".toList.length ≠ 10 := by
  refine ⟨by decide, by decide, by decide⟩

/-- Claim C8 (amended): uploads performed through the store_gcs uploader
(the one main.py imports) use the storage key
{currentDate}/{messageId}/{sanitizedFileName} — visible inside the gs://
URI returned on success — while the legacy GCSManager.upload_attachment of
gmail_processor_refactored.py uses attachments/{messageId}/{sanitizedFileName}
with no date segment. -/
theorem c8_storage_key_amended (put : String → List Nat → String → Bool)
    (curr_date bucket_name file_name : String) (file_data : List Nat)
    (file_type message_id : String) :
    (upload_attachment_to_gcs put curr_date bucket_name file_name file_data
        file_type message_id
      = some ("gs://" ++ bucket_name ++ "/"
          ++ gcs_blob_name curr_date message_id file_name) ∨
     upload_attachment_to_gcs put curr_date bucket_name file_name file_data
        file_type message_id = none) ∧
    gcs_blob_name curr_date message_id file_name
      = curr_date ++ "/" ++ message_id ++ "/" ++ sanitizeStr file_name ∧
    gcs_blob_name_refactored message_id file_name
      = "attachments/" ++ message_id ++ "/" ++ sanitizeStr file_name := by
  refine ⟨?_, rfl, rfl⟩
  by_cases hp : put (gcs_blob_name curr_date message_id file_name) file_data file_type
  · left
    simp [upload_attachment_to_gcs, hp]
  · right
    simp [upload_attachment_to_gcs, hp]

/-- Claim C4, counterexample to the claim as stated: a part that has both
an attachment candidate shape (filename a.txt, id id1) and a child list is
NOT itself yielded — only its child candidate id2 appears in the output of
the attachment extractor. -/
theorem c4_attachment_candidate_counterexample :
    extract_attachments (fun aid _ _ => aid) c4Parent = ["id2"] ∧
    ¬ ("id1" ∈ extract_attachments (fun aid _ _ => aid) c4Parent) := by
  have h : extract_attachments (fun aid _ _ => (aid : String)) c4Parent = ["id2"] := by
    simp [extract_attachments, c4Parent, c4Child, MsgPart.parts, process_parts,
      strTruthy]
  refine ⟨h, ?_⟩
  rw [h]
  decide

/-- Claim C4 (amended): in the attachment extractor a part that has a
parts key is only recursed into (its own filename and attachment id are
ignored), and a part is yielded as a candidate exactly when it has no
parts key, a truthy filename and a truthy attachment id; subsequent
siblings are still walked in both cases. -/
theorem c4_attachment_candidate_amended {A : Type}
    (handle : String → String → String → A) (mt fn : Option String)
    (bd : PartBody) (rest : List MsgPart) :
    (∀ children,
        process_parts handle (MsgPart.mk mt fn bd (some children) :: rest)
          = process_parts handle children ++ process_parts handle rest) ∧
    (strTruthy fn = true → strTruthy bd.attachmentId = true →
        process_parts handle (MsgPart.mk mt fn bd none :: rest)
          = handle (bd.attachmentId.getD "") (fn.getD "")
              (mt.getD "application/octet-stream") :: process_parts handle rest) := by
  constructor
  · intro children
    simp [process_parts]
  · intro h1 h2
    simp [process_parts, h1, h2]

/-- Witness for c4_attachment_candidate_amended on the concrete fixtures:
the parent with children contributes only its child walk, and the leaf
candidate is yielded in front of its siblings. -/
theorem c4_attachment_candidate_amended_witness :
    (process_parts (fun aid _ _ => aid) [c4Parent]
        = process_parts (fun aid _ _ => aid) [c4Child]
          ++ process_parts (fun aid _ _ => aid) []) ∧
    (strTruthy (some "b.txt") = true ∧
     strTruthy (PartBody.mk none (some "id2")).attachmentId = true ∧
     process_parts (fun aid _ _ => aid) [c4Child]
        = "id2" :: process_parts (fun aid _ _ => aid) []) :=
  ⟨(c4_attachment_candidate_amended (fun aid _ _ => aid) (some "application/pdf")
      (some "a.txt") ⟨none, some "id1"⟩ []).1 [c4Child],
   ⟨by decide, by decide,
    (c4_attachment_candidate_amended (fun aid _ _ => aid) (some "text/plain")
      (some "b.txt") ⟨none, some "id2"⟩ []).2 (by decide) (by decide)⟩⟩

/-- Claim C6, counterexample to the claim as stated: the body extractor of
src/src/components/process_emails.py applies no filename check, so a
text/plain direct child that carries a filename (an attachment candidate)
still contributes its decoded data to the body. -/
theorem c6_filename_body_counterexample :
    extract_email_body (fun _ => some "secret") (fun s => s) (multiPart [c6Att])
      = Except.ok "secret" ∧
    (Except.ok "secret" : Except PyErr String) ≠ Except.ok "" := by
  constructor
  · rfl
  · simp

/-- Claim C6 (amended): in the refactored extractor
(gmail_processor_refactored.py) a leaf part bearing a truthy filename is
never treated as body content — it contributes nothing to the walk, and as
a single-part payload it yields the empty body — whereas the components
variant has no filename check (see the counterexample). -/
theorem c6_filename_body_amended (mt fn : Option String) (bd : PartBody)
    (hfn : strTruthy fn = true) :
    (∀ dec strip rest body,
        body_walk dec strip (MsgPart.mk mt fn bd none :: rest) body
          = body_walk dec strip rest body) ∧
    (∀ dec strip,
        extract_email_body_refactored dec strip (MsgPart.mk mt fn bd none) = "") := by
  have hitp : is_text_part (MsgPart.mk mt fn bd none) = false := by
    simp [is_text_part, MsgPart.filename, hfn]
  constructor
  · intro dec strip rest body
    simp [body_walk, hitp]
  · intro dec strip
    simp [extract_email_body_refactored, MsgPart.parts, hitp]
    rfl

/-- Witness for c6_filename_body_amended on the concrete fixture part. -/
theorem c6_filename_body_amended_witness :
    strTruthy (some "notes.txt") = true ∧
    (body_walk (fun _ => some "secret") (fun s => s) [c6Att] "start" = "start" ∧
     extract_email_body_refactored (fun _ => some "secret") (fun s => s) c6Att = "") :=
  ⟨by decide,
   ((c6_filename_body_amended (some "text/plain") (some "notes.txt")
      ⟨some "c2VjcmV0", some "att1"⟩ (by decide)).1 (fun _ => some "secret")
      (fun s => s) [] "start").trans (by simp [body_walk]),
   (c6_filename_body_amended (some "text/plain") (some "notes.txt")
      ⟨some "c2VjcmV0", some "att1"⟩ (by decide)).2 (fun _ => some "secret")
      (fun s => s)⟩

/-- Claim C5, counterexample to the claim as stated: the body extractor of
src/src/components/process_emails.py does not recurse, so a text/plain
leaf at nesting depth two (multipart inside multipart) contributes nothing
— the extracted body is empty even though the leaf decodes to Hello. -/
theorem c5_nested_body_counterexample :
    extract_email_body (fun _ => some "Hello") (fun s => s)
        (multiPart [multiPart [plainPart "SGVsbG8="]])
      = Except.ok "" ∧
    (fun _ : String => some "Hello") "SGVsbG8=" = some "Hello" := by
  exact ⟨rfl, rfl⟩

/-- Claim C5 (amended): the refactored extractor
(gmail_processor_refactored.py) walks descendant leaves recursively, so a
depth-two text/plain leaf contributes its decoded text and plain-text
contributions concatenate in document order, while the components variant
scans only the direct children of the root: on the same tree it returns
just the top-level text. -/
theorem c5_nested_body_amended (dec : String → Option String)
    (strip : String → String) (d1 d2 s1 s2 : String)
    (h1 : dec d1 = some s1) (h2 : dec d2 = some s2)
    (hs1 : s1 ≠ "") (hs2 : s2 ≠ "") :
    extract_email_body_refactored dec strip
        (multiPart [plainPart d1, multiPart [multiPart [plainPart d2]]])
      = pyStrip (s1 ++ s2) ∧
    extract_email_body dec strip
        (multiPart [plainPart d1, multiPart [multiPart [plainPart d2]]])
      = Except.ok (pyStrip s1) := by
  constructor
  · simp [extract_email_body_refactored, multiPart, plainPart, MsgPart.parts,
      body_walk, is_text_part, decode_part_data, MsgPart.mimeType, MsgPart.filename,
      MsgPart.body, strTruthy, h1, h2, hs1, hs2, str_empty_append]
  · simp [extract_email_body, extract_body_loop, multiPart, plainPart,
      MsgPart.parts, MsgPart.mimeType, MsgPart.body, Except.map, h1, hs1,
      str_empty_append]

/-- Witness for c5_nested_body_amended with a concrete two-leaf tree. -/
theorem c5_nested_body_amended_witness :
    ((fun d => if d = "D1" then some "ab" else some "cd") "D1" = some "ab") ∧
    ((fun d => if d = "D1" then some "ab" else some "cd") "D2" = some "cd") ∧
    ("ab" ≠ "") ∧ ("cd" ≠ "") ∧
    (extract_email_body_refactored (fun d => if d = "D1" then some "ab" else some "cd")
        (fun s => s) (multiPart [plainPart "D1", multiPart [multiPart [plainPart "D2"]]])
      = pyStrip ("ab" ++ "cd") ∧
     extract_email_body (fun d => if d = "D1" then some "ab" else some "cd")
        (fun s => s) (multiPart [plainPart "D1", multiPart [multiPart [plainPart "D2"]]])
      = Except.ok (pyStrip "ab")) :=
  ⟨rfl, rfl, by decide, by decide,
   c5_nested_body_amended (fun d => if d = "D1" then some "ab" else some "cd")
     (fun s => s) "D1" "D2" "ab" "cd" rfl rfl (by decide) (by decide)⟩

/-- Claim C2, counterexample to the claim as stated: in a two-message
batch, an error inside the first message's pipeline (read_email raising)
is caught only by the batch-level handler; the second message id is never
read, so the orchestrator does NOT continue with the next message id. -/
theorem c2_error_isolation_counterexample :
    process_emails true (.ok ["m1", "m2"])
        (fun id => if id = "m1" then .error (.other "boom") else .ok ⟨[], "ok"⟩)
        (fun _ _ _ _ => .ok (true, some "gs://x"))
        (fun _ => .ok (some true))
      = ⟨["m1"], [], some (.other "boom")⟩ := by
  rfl

/-- Claim C2 (amended): main.py has a single try/except around the whole
batch, so an error raised in ANY message's pipeline ends the loop at that
message (later ids are not processed) and is logged once at batch
granularity; a listing error likewise yields an aborted empty batch, and
an initialisation failure returns early with nothing processed. -/
theorem c2_error_isolation_amended
    (readEmail : String → Except PyErr ExtractedEmail)
    (uploadGcs : String → List Nat → String → String → Except PyErr (Bool × Option String))
    (storeBq : ExtractedEmail → Except PyErr (Option Bool)) :
    (∀ emailId rest st reads marked e,
        processOneEmail readEmail uploadGcs storeBq st emailId = .error e →
        processLoop readEmail uploadGcs storeBq (emailId :: rest) st reads marked
          = ⟨reads ++ [emailId], marked, some e⟩) ∧
    (∀ e, process_emails true (.error e) readEmail uploadGcs storeBq
        = ⟨[], [], some e⟩) ∧
    (∀ listUnread, process_emails false listUnread readEmail uploadGcs storeBq
        = ⟨[], [], none⟩) := by
  refine ⟨?_, ?_, ?_⟩
  · intro emailId rest st reads marked e he
    simp [processLoop, he]
  · intro e
    simp [process_emails]
  · intro l
    simp [process_emails]

/-- Witness for c2_error_isolation_amended: a concrete failing first
message with one further id pending. -/
theorem c2_error_isolation_amended_witness :
    processOneEmail (fun _ => .error (.other "boom"))
        (fun _ _ _ _ => .ok (true, none)) (fun _ => .ok none) none "m1"
      = .error (.other "boom") ∧
    processLoop (fun _ => .error (.other "boom"))
        (fun _ _ _ _ => .ok (true, none)) (fun _ => .ok none)
        ["m1", "m2"] none [] []
      = ⟨["m1"], [], some (.other "boom")⟩ :=
  ⟨rfl,
   (c2_error_isolation_amended (fun _ => .error (.other "boom"))
      (fun _ _ _ _ => .ok (true, none)) (fun _ => .ok none)).1
     "m1" ["m2"] none [] [] (.other "boom") rfl⟩

/-- Claim C10: evaluating the mark-read condition on the first message
whose every attachment has falsy file_data reads the never-assigned
gcs_upload_status local and raises UnboundLocalError, which the batch
handler logs — the message is left unread and the batch ends.  (The
warehouse step is mocked truthy here, as in the repository's own test for
this scenario, so the crash is attributable to the condition alone.) -/
theorem c10_unbound_gcs_status :
    process_emails true (.ok ["m1"])
        (fun _ => .ok ⟨[⟨"empty.pdf", none, "application/pdf", none⟩], "c"⟩)
        (fun _ _ _ _ => .ok (true, some "gs://x"))
        (fun _ => .ok (some true))
      = ⟨["m1"], [], some .unboundLocal⟩ := by
  rfl

lemma store_bq_none {R S : Type} (toRow : R → S) (insert : List S → List String)
    (emails : List R) : store_emails_in_bigquery toRow insert emails = none := by
  unfold store_emails_in_bigquery
  split <;> rfl

lemma evalMark_bq_none (atts : List MainAttachment) (st : Option Bool) :
    evalMarkCond atts st none = .ok false ∨
    evalMarkCond atts st none = .error .unboundLocal := by
  unfold evalMarkCond
  by_cases h : atts.isEmpty
  · left
    simp [h, truthyOpt]
  · cases st with
    | none => right; simp [h]
    | some b => left; simp [h, truthyOpt]

lemma processOne_no_mark
    (readEmail : String → Except PyErr ExtractedEmail)
    (uploadGcs : String → List Nat → String → String → Except PyErr (Bool × Option String))
    (storeBq : ExtractedEmail → Except PyErr (Option Bool))
    (hsb : ∀ e, storeBq e = .ok none)
    (st : Option Bool) (emailId : String) (st2 : Option Bool) (mk : Option String)
    (h : processOneEmail readEmail uploadGcs storeBq st emailId = .ok (st2, mk)) :
    mk = none := by
  unfold processOneEmail at h
  cases hre : readEmail emailId with
  | error e => rw [hre] at h; simp at h
  | ok ex =>
      rw [hre] at h
      dsimp only at h
      cases hpa : processAttachments uploadGcs emailId ex.attachments st with
      | error e => rw [hpa] at h; simp at h
      | ok p =>
          rw [hpa] at h
          obtain ⟨st3, atts2⟩ := p
          dsimp only at h
          rw [hsb] at h
          dsimp only at h
          rcases evalMark_bq_none atts2 st3 with hm | hm
          · rw [hm] at h
            simp at h
            exact h.2.symm
          · rw [hm] at h
            simp at h

lemma processLoop_marked_const
    (readEmail : String → Except PyErr ExtractedEmail)
    (uploadGcs : String → List Nat → String → String → Except PyErr (Bool × Option String))
    (storeBq : ExtractedEmail → Except PyErr (Option Bool))
    (hsb : ∀ e, storeBq e = .ok none) :
    ∀ (ids : List String) (st : Option Bool) (reads marked : List String),
      (processLoop readEmail uploadGcs storeBq ids st reads marked).marked = marked := by
  intro ids
  induction ids with
  | nil => intro st reads marked; rfl
  | cons emailId rest ih =>
      intro st reads marked
      cases hp : processOneEmail readEmail uploadGcs storeBq st emailId with
      | error e => simp [processLoop, hp]
      | ok p =>
          obtain ⟨st2, mk⟩ := p
          have hmk := processOne_no_mark readEmail uploadGcs storeBq hsb
            st emailId st2 mk hp
          subst hmk
          simp only [processLoop, hp]
          simpa using ih st2 (reads ++ [emailId]) marked

/-- Claim C1 (amended): composed with the actual store_emails_in_bigquery
(which returns None — it has no return statement on any path), the
orchestrator NEVER marks any message read, whatever the batch, the reader,
or the uploader do: bq_upload_status is always falsy, so the mark
condition never holds.  (The call site also passes a single record where
the store function iterates a list; the charitable singleton-list reading
modelled here still yields None, while the literal dict iteration would
raise and likewise mark nothing.) -/
theorem c1_mark_read_amended {S : Type} (authOk : Bool)
    (listUnread : Except PyErr (List String))
    (readEmail : String → Except PyErr ExtractedEmail)
    (uploadGcs : String → List Nat → String → String → Except PyErr (Bool × Option String))
    (toRow : ExtractedEmail → S) (insert : List S → List String) :
    (process_emails authOk listUnread readEmail uploadGcs
      (fun e => .ok (store_emails_in_bigquery toRow insert [e]))).marked = [] := by
  have hsb : ∀ e, (fun e => (Except.ok (store_emails_in_bigquery toRow insert [e]) :
      Except PyErr (Option Bool))) e = .ok none := by
    intro e
    simp [store_bq_none]
  unfold process_emails
  by_cases ha : authOk
  · simp only [ha, if_true]
    cases listUnread with
    | error e => rfl
    | ok l =>
        exact processLoop_marked_const readEmail uploadGcs _ hsb l none [] []
  · simp [ha]

/-- Claim C1, counterexample to the claim as stated: a one-message batch
with zero attachments whose warehouse insert reports no errors (the insert
collaborator returns the empty error list) completes without any batch
error, yet the message is NOT marked read — store_emails_in_bigquery
returns None, never a success flag, so the claimed biconditional fails in
the only direction it promises a marking. -/
theorem c1_mark_read_counterexample :
    process_emails true (.ok ["m1"])
        (fun _ => .ok ⟨[], "record"⟩)
        (fun _ _ _ _ => .ok (true, some "gs://x"))
        (fun e => .ok (store_emails_in_bigquery (fun _ => ()) (fun _ => []) [e]))
      = ⟨["m1"], [], none⟩ := by
  rfl

lemma download_and_upload_flag (fetch : String → String → Except String (List Nat))
    (upload : List Nat → String → String → Option String)
    (message_id attachment_id filename mime_type : String) :
    (download_and_upload_attachment fetch upload message_id attachment_id
        filename mime_type).uploaded_successfully
      = (download_and_upload_attachment fetch upload message_id attachment_id
          filename mime_type).gcs_url.isSome := by
  unfold download_and_upload_attachment
  cases fetch message_id attachment_id <;> simp

lemma process_parts_mem {A : Type} (P : A → Prop)
    (handle : String → String → String → A)
    (hh : ∀ aid fn mt, P (handle aid fn mt)) :
    ∀ (parts : List MsgPart), ∀ a ∈ process_parts handle parts, P a
  | [] => by
      intro a ha
      simp [process_parts] at ha
  | MsgPart.mk mt fn bd (some children) :: rest => by
      intro a ha
      simp only [process_parts] at ha
      rcases List.mem_append.mp ha with h | h
      · exact process_parts_mem P handle hh children a h
      · exact process_parts_mem P handle hh rest a h
  | MsgPart.mk mt fn bd none :: rest => by
      intro a ha
      simp only [process_parts] at ha
      rcases List.mem_append.mp ha with h | h
      · by_cases hc : (strTruthy fn && strTruthy bd.attachmentId) = true
        · simp [hc] at h
          subst h
          exact hh _ _ _
        · simp [hc] at h
      · exact process_parts_mem P handle hh rest a h

lemma extract_attachments_mem {A : Type} (P : A → Prop)
    (handle : String → String → String → A)
    (hh : ∀ aid fn mt, P (handle aid fn mt)) (payload : MsgPart) :
    ∀ a ∈ extract_attachments handle payload, P a := by
  intro a ha
  unfold extract_attachments at ha
  cases hp : payload.parts with
  | some parts =>
      rw [hp] at ha
      dsimp only at ha
      exact process_parts_mem P handle hh parts a ha
  | none =>
      rw [hp] at ha
      dsimp only at ha
      by_cases hc : (strTruthy payload.filename && strTruthy payload.body.attachmentId) = true
      · simp [hc] at ha
        subst ha
        exact hh _ _ _
      · simp [hc] at ha

lemma summary_fold (l : List AttachmentInfo) :
    ∀ acc : List AttachmentSummaryEntry × Nat × Nat,
      (l.foldl summaryStep acc).1 = acc.1 ++ l.map entryOf ∧
      (l.foldl summaryStep acc).2.1 = acc.2.1 + (l.map (fun a => a.size)).sum ∧
      (l.foldl summaryStep acc).2.2
        = acc.2.2 + l.countP (fun a => a.uploaded_successfully) := by
  induction l with
  | nil => intro acc; simp
  | cons a t ih =>
      intro acc
      obtain ⟨ih1, ih2, ih3⟩ := ih (summaryStep acc a)
      refine ⟨?_, ?_, ?_⟩
      · rw [List.foldl_cons, ih1]
        simp [summaryStep, entryOf]
      · rw [List.foldl_cons, ih2]
        simp [summaryStep]
        omega
      · rw [List.foldl_cons, ih3]
        simp [summaryStep, List.countP_cons]
        by_cases hu : a.uploaded_successfully <;> simp [hu] <;> omega

lemma countP_map_entryOf (l : List AttachmentInfo) :
    (l.map entryOf).countP (fun o => o.uploaded_successfully)
      = l.countP (fun a => a.uploaded_successfully) := by
  induction l with
  | nil => rfl
  | cons a t ih => simp [List.countP_cons, entryOf, ih]

lemma sum_map_entryOf (l : List AttachmentInfo) :
    ((l.map entryOf).map (fun o => o.size)).sum = (l.map (fun a => a.size)).sum := by
  induction l with
  | nil => rfl
  | cons a t ih => simp only [List.map_cons, List.sum_cons, ih, entryOf]

/-- Claim C9: every record assembled by parse_email satisfies the
bookkeeping invariants — attachment_count equals the length of the
attachment summary, successful_uploads counts exactly the summary entries
with uploaded_successfully true, total_attachment_size is the sum of the
summary sizes, and every summary entry has uploaded_successfully true
exactly when its storage URI is non-null. -/
theorem c9_email_record_invariants {DT : Type}
    (fetch : String → String → Except String (List Nat))
    (upload : List Nat → String → String → Option String)
    (dec : String → Option String) (strip : String → String)
    (parsedate : String → Except String DT) (isoformat : DT → String)
    (clock : Clock) (message : GmailMessage) (r : EmailRecord)
    (h : parse_email fetch upload dec strip parsedate isoformat clock message
      = .ok r) :
    r.attachment_count = r.attachment_summary.length ∧
    r.successful_uploads
      = r.attachment_summary.countP (fun o => o.uploaded_successfully) ∧
    r.total_attachment_size = (r.attachment_summary.map (fun o => o.size)).sum ∧
    ∀ o ∈ r.attachment_summary, o.uploaded_successfully = o.gcs_url.isSome := by
  unfold parse_email at h
  cases hb : extract_email_body dec strip message.payload with
  | error e => rw [hb] at h; simp at h
  | ok body =>
      rw [hb] at h
      dsimp only at h
      simp only [Except.ok.injEq] at h
      subst h
      obtain ⟨h1, h2, h3⟩ := summary_fold
        (extract_attachments
          (fun aid fn mt => download_and_upload_attachment fetch upload
            message.id aid fn mt) message.payload) ([], 0, 0)
      refine ⟨?_, ?_, ?_, ?_⟩
      · dsimp only
        rw [h1]
        simp
      · dsimp only
        rw [h3, h1]
        have hc : ((fun o : AttachmentSummaryEntry => o.uploaded_successfully) ∘ entryOf)
            = (fun a : AttachmentInfo => a.uploaded_successfully) := by
          funext a
          simp [entryOf, Function.comp]
        simp [List.countP_map, hc]
      · dsimp only
        rw [h2, h1]
        have hs : ((fun o : AttachmentSummaryEntry => o.size) ∘ entryOf)
            = (fun a : AttachmentInfo => a.size) := by
          funext a
          simp [entryOf, Function.comp]
        simp [List.map_map, hs]
      · intro o ho
        dsimp only at ho
        rw [h1] at ho
        simp only [List.nil_append, List.mem_map] at ho
        obtain ⟨a, ha, rfl⟩ := ho
        have := extract_attachments_mem
          (fun x => x.uploaded_successfully = x.gcs_url.isSome)
          (fun aid fn mt => download_and_upload_attachment fetch upload
            message.id aid fn mt)
          (fun aid fn mt => download_and_upload_flag fetch upload
            message.id aid fn mt) message.payload a ha
        simpa [entryOf] using this

/-- Witness for c9_email_record_invariants on a concrete one-attachment
message whose fetch yields three bytes and whose upload succeeds. -/
theorem c9_email_record_invariants_witness :
    parse_email (fun _ _ => .ok [1, 2, 3]) (fun _ _ _ => some "gs://b/k")
        (fun _ => none) (fun s => s) (fun _ => Except.error "x")
        (fun _ : Unit => "") ⟨"L", "U"⟩ c9Msg = .ok c9Record ∧
    (c9Record.attachment_count = c9Record.attachment_summary.length ∧
     c9Record.successful_uploads
       = c9Record.attachment_summary.countP (fun o => o.uploaded_successfully) ∧
     c9Record.total_attachment_size
       = (c9Record.attachment_summary.map (fun o => o.size)).sum ∧
     ∀ o ∈ c9Record.attachment_summary,
        o.uploaded_successfully = o.gcs_url.isSome) := by
  have hrun : parse_email (fun _ _ => .ok [1, 2, 3]) (fun _ _ _ => some "gs://b/k")
      (fun _ => none) (fun s => s) (fun _ => Except.error "x")
      (fun _ : Unit => "") ⟨"L", "U"⟩ c9Msg = .ok c9Record := by
    simp [parse_email, c9Msg, c9Record, extract_attachments, MsgPart.parts,
      MsgPart.filename, MsgPart.body, MsgPart.mimeType, strTruthy,
      download_and_upload_attachment, summaryStep, entryOf, extract_email_body,
      headersDict, parse_email_date_components, pyStrip]
  exact ⟨hrun,
    c9_email_record_invariants (fun _ _ => .ok [1, 2, 3])
      (fun _ _ _ => some "gs://b/k") (fun _ => none) (fun s => s)
      (fun _ => Except.error "x") (fun _ : Unit => "") ⟨"L", "U"⟩
      c9Msg c9Record hrun⟩
